import Mathlib

/-!
Shallow embedding of `src/update_notifier.py` (class `UpdateNotifier`).

External effects of the Python code (the platform credential store, the remote
feed service, the local distribution registry, the throttle file and the system
clock) are modelled as an explicit environment record `Env`.  Each failure mode
the source code distinguishes with its own `except` clause is representable in
the environment (a missing throttle file, an unparseable date, a failed remote
call, a failed local lookup, a failed write); console output is modelled as a
list of structured messages together with a faithful rendering function.
-/

namespace UpdateNotifier

/-- ASCII digit test, the `[0-9]` character class of the `strptime` and
PEP 440 regular expressions. -/
def isDigitChar (c : Char) : Bool := '0' ≤ c && c ≤ '9'

/-- Python `int()` applied to a run of ASCII digits. -/
def digitsToNat (ds : List Char) : Nat := ds.foldl (fun n c => n * 10 + (c.toNat - 48)) 0

/-- Longest digit run at the head of the input (maximal-munch `[0-9]+`),
returning the digits and the remaining characters. -/
def takeDigits : List Char → List Char × List Char
  | [] => ([], [])
  | c :: cs =>
    if isDigitChar c then
      let r := takeDigits cs
      (c :: r.1, r.2)
    else ([], c :: cs)

/-- The whitespace class stripped by Python `str.strip()` and matched by the
`\s*` padding of the `packaging.version` pattern: space, tab, LF, CR, VT, FF. -/
def pyIsSpace (c : Char) : Bool :=
  c = ' ' || c = '\t' || c = '\n' || c = '\r' || c = '\x0b' || c = '\x0c'

def pyStripList (l : List Char) : List Char :=
  ((l.dropWhile pyIsSpace).reverse.dropWhile pyIsSpace).reverse

/-- Python `str.strip()`, as applied to the throttle-file content
(`file.read().strip()`, line 104 of the source). -/
def pyStrip (s : String) : String := String.mk (pyStripList s.data)

/-- A `datetime.date` value: year, month, day. -/
structure PyDate where
  year : Nat
  month : Nat
  day : Nat
  deriving DecidableEq

def isLeapYear (y : Nat) : Bool := y % 4 == 0 && (y % 100 != 0 || y % 400 == 0)

def daysInMonth (y m : Nat) : Nat :=
  if m = 2 then (if isLeapYear y then 29 else 28)
  else if m = 4 || m = 6 || m = 9 || m = 11 then 30
  else 31

/-- Number of days in year `y` strictly before month `m`
(CPython `datetime._days_before_month`). -/
def daysBeforeMonth (y : Nat) : Nat → Nat
  | 0 => 0
  | 1 => 0
  | m + 2 => daysBeforeMonth y (m + 1) + daysInMonth y (m + 1)

/-- Proleptic Gregorian ordinal of a date (`datetime.date.toordinal`).
Python's date subtraction `(a - b).days`, used on line 108 of the source,
equals the difference of the two ordinals. -/
def toordinal (d : PyDate) : Nat :=
  365 * (d.year - 1) + (d.year - 1) / 4 - (d.year - 1) / 100 + (d.year - 1) / 400
    + daysBeforeMonth d.year d.month + d.day

/-- Zero-pad a number to a given width. -/
def padNum (width n : Nat) : String :=
  let s := toString n
  String.mk (List.replicate (width - s.length) '0') ++ s

/-- `date.today().strftime("%Y-%m-%d")` (line 122 of the source): the ISO
form written to the throttle file. -/
def isoFormat (d : PyDate) : String :=
  padNum 4 d.year ++ "-" ++ padNum 2 d.month ++ "-" ++ padNum 2 d.day

/-- The `%m` fragment of `strptime`, regex `1[0-2]|0[1-9]|[1-9]` with the
alternatives tried in this order. -/
def parseMonth : List Char → Option (Nat × List Char)
  | c1 :: c2 :: rest =>
    if c1 = '1' && ('0' ≤ c2 && c2 ≤ '2') then some (digitsToNat [c1, c2], rest)
    else if c1 = '0' && ('1' ≤ c2 && c2 ≤ '9') then some (digitsToNat [c1, c2], rest)
    else if '1' ≤ c1 && c1 ≤ '9' then some (c1.toNat - 48, c2 :: rest)
    else none
  | [c1] => if '1' ≤ c1 && c1 ≤ '9' then some (c1.toNat - 48, []) else none
  | [] => none

/-- The `%d` fragment of `strptime`, regex `3[01]|[12]\d|0[1-9]|[1-9]`. -/
def parseDay : List Char → Option (Nat × List Char)
  | c1 :: c2 :: rest =>
    if c1 = '3' && (c2 = '0' || c2 = '1') then some (digitsToNat [c1, c2], rest)
    else if (c1 = '1' || c1 = '2') && isDigitChar c2 then some (digitsToNat [c1, c2], rest)
    else if c1 = '0' && ('1' ≤ c2 && c2 ≤ '9') then some (digitsToNat [c1, c2], rest)
    else if '1' ≤ c1 && c1 ≤ '9' then some (c1.toNat - 48, c2 :: rest)
    else none
  | [c1] => if '1' ≤ c1 && c1 ≤ '9' then some (c1.toNat - 48, []) else none
  | [] => none

/-- Structural part of `strptime(content, "%Y-%m-%d")`: `%Y` is exactly four
digits, each `-` is literal, and the unconsumed tail is returned.  `none`
corresponds to the regex not matching at all. -/
def parseYMD : List Char → Option (Nat × Nat × Nat × List Char)
  | c1 :: c2 :: c3 :: c4 :: '-' :: rest =>
    if isDigitChar c1 && isDigitChar c2 && isDigitChar c3 && isDigitChar c4 then
      match parseMonth rest with
      | some (m, '-' :: rest2) =>
        match parseDay rest2 with
        | some (d, rest3) => some (digitsToNat [c1, c2, c3, c4], m, d, rest3)
        | none => none
      | _ => none
    else none
  | _ => none

/-- `datetime.datetime.strptime(s, "%Y-%m-%d").date()` (line 106 of the
source).  An `Except.error` is the message of the raised `ValueError`: the
regex not matching, trailing unconverted data, or the `datetime` constructor
rejecting the field values. -/
def strptimeDate (s : String) : Except String PyDate :=
  match parseYMD s.data with
  | none => Except.error ("time data '" ++ s ++ "' does not match format '%Y-%m-%d'")
  | some (y, m, d, rest) =>
    if rest ≠ [] then Except.error ("unconverted data remains: " ++ String.mk rest)
    else if y = 0 then Except.error "year 0 is out of range"
    else if d > daysInMonth y m then Except.error "day is out of range for month"
    else Except.ok { year := y, month := m, day := d }

/-!
Model of the external `packaging.version` library used on line 135 of the
source (`version.parse(current) >= version.parse(latest)`): PEP 440 version
parsing and the comparison key of `packaging.version.Version._cmpkey`.
-/

/-- A parsed PEP 440 version: epoch, release segments, pre-release
(letter rank `a` = 0, `b` = 1, `rc` = 2, with its number), post-release
number, dev number, and local segments (numeric or alphanumeric). -/
structure PyVersion where
  epoch : Nat
  release : List Nat
  pre : Option (Nat × Nat)
  post : Option Nat
  dev : Option Nat
  localv : Option (List (Sum String Nat))
  deriving DecidableEq

/-- Consume one optional separator `[-_.]`. -/
def dropSep (cs : List Char) : List Char :=
  match cs with
  | c :: rest => if c = '-' || c = '_' || c = '.' then rest else cs
  | [] => []

/-- Match a literal word at the head of the input. -/
def matchWord (w : List Char) (cs : List Char) : Option (List Char) :=
  match w, cs with
  | [], _ => some cs
  | a :: ws, c :: rest => if c = a then matchWord ws rest else none
  | _ :: _, [] => none

/-- Optional separator followed by an optional number, the
`[-_\.]?(?P<n>[0-9]+)?` tail of the pre/post/dev groups; a missing number
normalizes to 0. -/
def finishNum (cs : List Char) : Option Nat × List Char :=
  let t := dropSep cs
  match takeDigits t with
  | ([], _) => (some 0, t)
  | (ds, rest) => (some (digitsToNat ds), rest)

/-- The `(?:\.[0-9]+)*` tail of the release group.  `fuel` is an upper bound
on the number of characters still to consume (each step consumes at least
two), passed as the remaining input length at the call site. -/
def parseRelMore (fuel : Nat) (cs : List Char) : List Nat × List Char :=
  match fuel with
  | 0 => ([], cs)
  | fuel + 1 =>
    match cs with
    | '.' :: rest =>
      (match takeDigits rest with
       | ([], _) => ([], cs)
       | (ds, rest2) =>
         let r := parseRelMore fuel rest2
         (digitsToNat ds :: r.1, r.2))
    | _ => ([], cs)

/-- The `(?:(?P<epoch>[0-9]+)!)?` and `(?P<release>[0-9]+(?:\.[0-9]+)*)`
groups: leading digits are the epoch when followed by `!`, else the first
release segment. -/
def parseEpochRelease (cs : List Char) : Option (Nat × List Nat × List Char) :=
  match takeDigits cs with
  | ([], _) => none
  | (ds, rest) =>
    match rest with
    | '!' :: rest2 =>
      (match takeDigits rest2 with
       | ([], _) => none
       | (rds, rest3) =>
         let r := parseRelMore rest3.length rest3
         some (digitsToNat ds, digitsToNat rds :: r.1, r.2))
    | _ =>
      let r := parseRelMore rest.length rest
      some (0, digitsToNat ds :: r.1, r.2)

/-- One pre-release alternative: separator, the given word, then the numeric
tail.  Fails without consuming anything when the word is absent. -/
def tryPre (w : List Char) (rank : Nat) (cs : List Char) : Option ((Nat × Nat) × List Char) :=
  match matchWord w (dropSep cs) with
  | some rest =>
    (match finishNum rest with
     | (some n, rest2) => some ((rank, n), rest2)
     | (none, rest2) => some ((rank, 0), rest2))
  | none => none

/-- The pre-release group `[-_\.]?(alpha|a|b|beta|c|pre|preview|rc)[-_\.]?N?`,
with normalization `alpha` → `a`, `beta` → `b`, `c`/`pre`/`preview` → `rc`.
Alternatives are tried longest first, which agrees with the backtracking of
the ordered regex alternation on every input. -/
def parsePre (cs : List Char) : Option (Nat × Nat) × List Char :=
  match tryPre ['p','r','e','v','i','e','w'] 2 cs with
  | some (p, r) => (some p, r)
  | none =>
  match tryPre ['a','l','p','h','a'] 0 cs with
  | some (p, r) => (some p, r)
  | none =>
  match tryPre ['b','e','t','a'] 1 cs with
  | some (p, r) => (some p, r)
  | none =>
  match tryPre ['p','r','e'] 2 cs with
  | some (p, r) => (some p, r)
  | none =>
  match tryPre ['r','c'] 2 cs with
  | some (p, r) => (some p, r)
  | none =>
  match tryPre ['a'] 0 cs with
  | some (p, r) => (some p, r)
  | none =>
  match tryPre ['b'] 1 cs with
  | some (p, r) => (some p, r)
  | none =>
  match tryPre ['c'] 2 cs with
  | some (p, r) => (some p, r)
  | none => (none, cs)

/-- The word alternative of the post-release group, `[-_\.]?(post|rev|r)...`,
with `rev`/`r` normalized to `post`. -/
def parsePostWord (cs : List Char) : Option Nat × List Char :=
  let t := dropSep cs
  match matchWord ['p','o','s','t'] t with
  | some rest => finishNum rest
  | none =>
  match matchWord ['r','e','v'] t with
  | some rest => finishNum rest
  | none =>
  match matchWord ['r'] t with
  | some rest => finishNum rest
  | none => (none, cs)

/-- The post-release group: either the implicit form `-N` or a post word. -/
def parsePost (cs : List Char) : Option Nat × List Char :=
  match cs with
  | '-' :: rest =>
    (match takeDigits rest with
     | ([], _) => parsePostWord cs
     | (ds, rest2) => (some (digitsToNat ds), rest2))
  | _ => parsePostWord cs

/-- The dev group `[-_\.]?dev[-_\.]?N?`. -/
def parseDev (cs : List Char) : Option Nat × List Char :=
  match matchWord ['d','e','v'] (dropSep cs) with
  | some rest => finishNum rest
  | none => (none, cs)

def isAlnumLower (c : Char) : Bool := isDigitChar c || ('a' ≤ c && c ≤ 'z')

/-- Longest `[a-z0-9]+` run at the head of the input. -/
def takeAlnum : List Char → List Char × List Char
  | [] => ([], [])
  | c :: cs =>
    if isAlnumLower c then
      let r := takeAlnum cs
      (c :: r.1, r.2)
    else ([], c :: cs)

/-- A local segment: purely numeric segments become numbers, others stay
strings (`packaging.version._parse_local_version`). -/
def localSegOf (ds : List Char) : Sum String Nat :=
  if ds.all isDigitChar then Sum.inr (digitsToNat ds) else Sum.inl (String.mk ds)

/-- Further `[-_\.][a-z0-9]+` local segments; `fuel` bounds the remaining
input length as in `parseRelMore`. -/
def parseLocalMore (fuel : Nat) (cs : List Char) : List (Sum String Nat) × List Char :=
  match fuel with
  | 0 => ([], cs)
  | fuel + 1 =>
    match cs with
    | c :: rest =>
      if c = '-' || c = '_' || c = '.' then
        match takeAlnum rest with
        | ([], _) => ([], c :: rest)
        | (seg, rest2) =>
          let r := parseLocalMore fuel rest2
          (localSegOf seg :: r.1, r.2)
      else ([], c :: rest)
    | [] => ([], [])

/-- The local group `\+[a-z0-9]+([-_\.][a-z0-9]+)*`. -/
def parseLocal (cs : List Char) : Option (List (Sum String Nat)) × List Char :=
  match cs with
  | '+' :: rest =>
    (match takeAlnum rest with
     | ([], _) => (none, '+' :: rest)
     | (seg, rest2) =>
       let r := parseLocalMore rest2.length rest2
       (some (localSegOf seg :: r.1), r.2))
  | _ => (none, cs)

/-- Parse the (already stripped and lowercased) characters of a version,
after the optional `v` prefix.  The whole input must be consumed. -/
def parseVersionChars (cs : List Char) : Option PyVersion :=
  match parseEpochRelease cs with
  | none => none
  | some (ep, rel, rest) =>
    match parsePre rest with
    | (pre, rest2) =>
      match parsePost rest2 with
      | (post, rest3) =>
        match parseDev rest3 with
        | (dev, rest4) =>
          match parseLocal rest4 with
          | (loc, rest5) =>
            if rest5 = [] then
              some { epoch := ep, release := rel, pre := pre, post := post,
                     dev := dev, localv := loc }
            else none

/-- `packaging.version.parse`: strip the `\s*` padding, lowercase
(the regex is compiled with `re.IGNORECASE` and letters are normalized to
lower case), drop an optional `v` prefix, then parse.  `none` corresponds to
`InvalidVersion` being raised. -/
def parseVersion (s : String) : Option PyVersion :=
  let cs := (pyStrip s).data.map Char.toLower
  match cs with
  | 'v' :: rest => parseVersionChars rest
  | _ => parseVersionChars cs

/-- `version.parse` as it behaves inside the `try` block of
`check_for_update`: an unparseable string raises `InvalidVersion`. -/
def parseVersionExc (s : String) : Except String PyVersion :=
  match parseVersion s with
  | some v => Except.ok v
  | none => Except.error ("Invalid version: '" ++ s ++ "'")

/-- Lexicographic comparison of lists under an element comparison; a strict
prefix is smaller, as for Python tuples. -/
def cmpList (f : α → α → Ordering) : List α → List α → Ordering
  | [], [] => Ordering.eq
  | [], _ :: _ => Ordering.lt
  | _ :: _, [] => Ordering.gt
  | a :: as, b :: bs =>
    match f a b with
    | Ordering.eq => cmpList f as bs
    | o => o

/-- Release segments with trailing zeros removed, as `_cmpkey` does before
comparing (so `1.0` and `1.0.0` compare equal). -/
def trimZeros (l : List Nat) : List Nat := (l.reverse.dropWhile (fun n => n == 0)).reverse

/-- The pre-release component of `_cmpkey`, with its two infinite
sentinels. -/
inductive PreKey where
  | negInf
  | val (letter : Nat) (n : Nat)
  | inf
  deriving DecidableEq

/-- `_cmpkey`'s pre component: versions without pre/post but with a dev sort
before everything, versions without a pre but with post or no dev sort after
every pre-release. -/
def preKeyOf (v : PyVersion) : PreKey :=
  match v.pre with
  | some p => PreKey.val p.1 p.2
  | none =>
    match v.post, v.dev with
    | none, some _ => PreKey.negInf
    | _, _ => PreKey.inf

def cmpPreKey : PreKey → PreKey → Ordering
  | PreKey.negInf, PreKey.negInf => Ordering.eq
  | PreKey.negInf, _ => Ordering.lt
  | _, PreKey.negInf => Ordering.gt
  | PreKey.inf, PreKey.inf => Ordering.eq
  | PreKey.inf, _ => Ordering.gt
  | _, PreKey.inf => Ordering.lt
  | PreKey.val a m, PreKey.val b n => (compare a b).then (compare m n)

/-- `_cmpkey`'s post component: a missing post-release sorts first. -/
def cmpPost : Option Nat → Option Nat → Ordering
  | none, none => Ordering.eq
  | none, some _ => Ordering.lt
  | some _, none => Ordering.gt
  | some a, some b => compare a b

/-- `_cmpkey`'s dev component: a missing dev-release sorts last. -/
def cmpDev : Option Nat → Option Nat → Ordering
  | none, none => Ordering.eq
  | none, some _ => Ordering.gt
  | some _, none => Ordering.lt
  | some a, some b => compare a b

def cmpChar (a b : Char) : Ordering := compare a.toNat b.toNat

def cmpStr (a b : String) : Ordering := cmpList cmpChar a.data b.data

/-- Local segments: string segments sort before numeric ones, otherwise
componentwise. -/
def cmpLocalSeg : Sum String Nat → Sum String Nat → Ordering
  | Sum.inl a, Sum.inl b => cmpStr a b
  | Sum.inl _, Sum.inr _ => Ordering.lt
  | Sum.inr _, Sum.inl _ => Ordering.gt
  | Sum.inr a, Sum.inr b => compare a b

/-- `_cmpkey`'s local component: a missing local version sorts first. -/
def cmpLocal : Option (List (Sum String Nat)) → Option (List (Sum String Nat)) → Ordering
  | none, none => Ordering.eq
  | none, some _ => Ordering.lt
  | some _, none => Ordering.gt
  | some a, some b => cmpList cmpLocalSeg a b

/-- Total comparison of two parsed versions by the `_cmpkey` tuple
(epoch, trimmed release, pre, post, dev, local). -/
def cmpVersion (a b : PyVersion) : Ordering :=
  ((((compare a.epoch b.epoch).then
      (cmpList compare (trimZeros a.release) (trimZeros b.release))).then
      (cmpPreKey (preKeyOf a) (preKeyOf b))).then
      (cmpPost a.post b.post)).then
      ((cmpDev a.dev b.dev).then (cmpLocal a.localv b.localv))

/-- `Version.__ge__`: comparison key of the left not below that of the
right. -/
def pyGE (a b : PyVersion) : Bool := cmpVersion a b != Ordering.lt

/-!
Data model of the remote feed service and the notifier, and the orchestration
of `UpdateNotifier`.
-/

/-- An `azure.devops` `Feed`: the fields the source reads. -/
structure Feed where
  name : String
  id : String
  deriving DecidableEq

/-- A `MinimalPackageVersion`: version string and the "is latest" flag. -/
structure MinimalPackageVersion where
  version : String
  is_latest : Bool
  deriving DecidableEq

/-- A `Package`: name and version records. -/
structure Package where
  name : String
  versions : List MinimalPackageVersion
  deriving DecidableEq

/-- Constructor arguments of `UpdateNotifier.__init__`. -/
structure Config where
  organization : String
  project : String
  feed_name : String
  package_name : String
  username : String
  deriving DecidableEq

deriving instance DecidableEq for Except

/-- The external world of one `check_for_update()` run.  Remote calls and the
local distribution lookup are modelled by their outcome (`Except.error` is an
exception raised by the collaborator); the throttle file is its content, or
`none` when opening raises `FileNotFoundError`; `writeResult = some e` means
rewriting the throttle file raises `IOError` with message `e`.

`fileContent` covers only the two read outcomes `_should_check` handles
(content obtained, or `FileNotFoundError`).  `open`/`file.read()` can also
raise an `OSError` that is not `FileNotFoundError` (e.g. `PermissionError`,
`IsADirectoryError`), which `_should_check` does NOT catch; that outcome is
passed to `check_for_update_exc` below as a separate explicit argument. -/
structure Env where
  home : String
  cred : Option String
  feedsResp : Except String (List Feed)
  packagesResp : Except String (List Package)
  distResult : Except String String
  fileContent : Option String
  today : PyDate
  writeResult : Option String
  deriving DecidableEq

/-- colorama escape sequences used by the source. -/
def foreGREEN : String := "\x1b[32m"

def foreYELLOW : String := "\x1b[33m"

def foreRED : String := "\x1b[31m"

def foreRESET : String := "\x1b[39m"

def styleBRIGHT : String := "\x1b[1m"

/-- One console line printed by the notifier, as structured data.  The
`debugDetail` constructors carry the message of the exception being echoed
and are only produced when the `DEBUG` flag is set. -/
inductive Msg where
  | upToDate (pkg cur : String)
  | upgrade (pkg cur latest : String)
  | pipInstall (pkg latest : String)
  | warnCurrentVersion (pkg : String)
  | warnSaveFailed
  | errorChecking (pkg : String)
  | debugDetail (e : String)
  | debugDetailBright (e : String)
  deriving DecidableEq

/-- The exact text each `print` of the source emits (the f-strings of lines
93-98, 110-115, 124-126, 136-145 and 148-151, with colorama constants
substituted; adjacent Python string literals concatenate with no space). -/
def render : Msg → String
  | Msg.upToDate pkg cur =>
      foreGREEN ++ styleBRIGHT ++ pkg ++ " is up-to-date (version " ++ cur ++ ")" ++ foreRESET
  | Msg.upgrade pkg cur latest =>
      foreYELLOW ++ styleBRIGHT ++ "Please run the following command to update " ++ pkg
        ++ " to the latest version (" ++ cur ++ " -> " ++ latest ++ "):" ++ foreRESET ++ "\n"
  | Msg.pipInstall pkg latest => "pip install " ++ pkg ++ "==" ++ latest ++ "\n"
  | Msg.warnCurrentVersion pkg =>
      foreRED ++ styleBRIGHT ++ "Unable to get the current installed version of " ++ pkg
        ++ "The package might have not been installed in a different way" ++ foreRESET
  | Msg.warnSaveFailed =>
      foreRED ++ styleBRIGHT ++ "Update Notifier Error: Unable to save last checked date" ++ foreRESET
  | Msg.errorChecking pkg =>
      foreRED ++ styleBRIGHT ++ "Error checking for update for " ++ pkg ++ foreRESET
  | Msg.debugDetail e => foreRED ++ e ++ foreRESET
  | Msg.debugDetailBright e => foreRED ++ styleBRIGHT ++ e ++ foreRESET

/-- Classifies the three version-comparison outputs of `check_for_update`
(lines 136-145). -/
def isComparisonMsg : Msg → Bool
  | Msg.upToDate _ _ => true
  | Msg.upgrade _ _ _ => true
  | Msg.pipInstall _ _ => true
  | _ => false

/-- `self._last_checked_file_path` (line 32):
`Path.home() / f".{package_name}" / "update" / "last_checked.txt"`. -/
def last_checked_file_path (home pkg : String) : String :=
  home ++ "/." ++ pkg ++ "/update/last_checked.txt"

/-- `str(FileNotFoundError)` raised by `open` on a missing file. -/
def fileNotFoundMsg (path : String) : String :=
  "[Errno 2] No such file or directory: '" ++ path ++ "'"

/-- `_get_pat` (lines 37-43): a credential found in the store is returned,
otherwise `Exception("Error getting credential")` is raised. -/
def get_pat (env : Env) : Except String String :=
  match env.cred with
  | some p => Except.ok p
  | none => Except.error "Error getting credential"

/-- The `for feed in feeds` loop of `_get_feed_id` (lines 58-60). -/
def feedIdLoop (feedName : String) : List Feed → Option String
  | [] => none
  | f :: fs => if f.name == feedName then some f.id else feedIdLoop feedName fs

/-- `_get_feed_id` (lines 55-62).  The lazily memoized feed client is built on
first use, which looks up the credential (`_get_feed_client`, lines 45-53);
a failure there or in the `get_feeds` call propagates. -/
def get_feed_id (cfg : Config) (env : Env) : Except String String :=
  match get_pat env with
  | Except.error e => Except.error e
  | Except.ok _ =>
    match env.feedsResp with
    | Except.error e => Except.error e
    | Except.ok feeds =>
      match feedIdLoop cfg.feed_name feeds with
      | some i => Except.ok i
      | none => Except.error ("Error getting feed id for feed name '" ++ cfg.feed_name ++ "'")

/-- The `for package in packages` loop of `_get_package_info` (lines 71-73). -/
def packageLoop (pkgName : String) : List Package → Option Package
  | [] => none
  | p :: ps => if p.name == pkgName then some p else packageLoop pkgName ps

/-- `_get_package_info` (lines 64-75): the client is acquired, the feed id
resolved as an argument, then the returned packages are scanned. -/
def get_package_info (cfg : Config) (env : Env) : Except String Package :=
  match get_pat env with
  | Except.error e => Except.error e
  | Except.ok _ =>
    match get_feed_id cfg env with
    | Except.error e => Except.error e
    | Except.ok _ =>
      match env.packagesResp with
      | Except.error e => Except.error e
      | Except.ok packages =>
        match packageLoop cfg.package_name packages with
        | some p => Except.ok p
        | none =>
          Except.error ("Error getting package info for package name '" ++ cfg.package_name ++ "'")

/-- The `for v in versions` loop of `_get_latest_version` (lines 81-83). -/
def latestLoop : List MinimalPackageVersion → Option String
  | [] => none
  | v :: vs => if v.is_latest then some v.version else latestLoop vs

/-- `_get_latest_version` (lines 77-85): `none` when no version carries the
`is_latest` flag. -/
def get_latest_version (cfg : Config) (env : Env) : Except String (Option String) :=
  match get_package_info cfg env with
  | Except.error e => Except.error e
  | Except.ok p => Except.ok (latestLoop p.versions)

/-- `_get_current_version` (lines 87-99): any exception from the local
distribution lookup is caught here, a warning is printed (plus the exception
detail in debug mode) and `None` is returned. -/
def get_current_version (cfg : Config) (debug : Bool) (env : Env) : Option String × List Msg :=
  match env.distResult with
  | Except.ok v => (some v, [])
  | Except.error e =>
      (none, Msg.warnCurrentVersion cfg.package_name ::
               (if debug then [Msg.debugDetail e] else []))

/-- `_should_check` (lines 101-116) on the read outcomes it handles: read and
strip the throttle file, parse the date, and compare
`(today - file_date).days > 1`.  A missing file (`FileNotFoundError`) or an
unparseable date (`ValueError`) yields `True`, printing the exception in
debug mode.  Returns the debug output and the boolean result.  This function
is total because the two `except` clauses of the source cover exactly these
outcomes; the remaining outcome — an `OSError` other than
`FileNotFoundError` from `open`/`read`, which the source does NOT catch and
which therefore propagates — is modelled by `should_check_exc` below. -/
def should_check_full (path : String) (fileContent : Option String) (today : PyDate)
    (debug : Bool) : List Msg × Bool :=
  match fileContent with
  | none => ((if debug then [Msg.debugDetail (fileNotFoundMsg path)] else []), true)
  | some content =>
    match strptimeDate (pyStrip content) with
    | Except.ok fileDate =>
        ([], decide (((toordinal today : Int) - (toordinal fileDate : Int)) > 1))
    | Except.error ve => ((if debug then [Msg.debugDetail ve] else []), true)

/-- `_update_last_checked` (lines 118-126): write today's date; an `IOError`
is caught, a warning printed, and the write has no effect.  Returns the
output and whether the write succeeded. -/
def update_last_checked (debug : Bool) (env : Env) : List Msg × Bool :=
  match env.writeResult with
  | none => ([], true)
  | some e => (Msg.warnSaveFailed :: (if debug then [Msg.debugDetail e] else []), false)

/-- The body of the `try` block of `check_for_update` (lines 131-146).
Returns the lines printed before a possible exception, and either the raised
exception or whether the throttle write succeeded. -/
def tryBody (cfg : Config) (debug : Bool) (env : Env) : List Msg × Except String Bool :=
  match get_latest_version cfg env with
  | Except.error e => ([], Except.error e)
  | Except.ok latest_version =>
    match get_current_version cfg debug env with
    | (current_version, msgs1) =>
      match current_version, latest_version with
      | some cur, some lat =>
        (match parseVersionExc cur with
         | Except.error e => (msgs1, Except.error e)
         | Except.ok vc =>
           match parseVersionExc lat with
           | Except.error e => (msgs1, Except.error e)
           | Except.ok vl =>
             let cmpMsgs :=
               if pyGE vc vl then [Msg.upToDate cfg.package_name cur]
               else [Msg.upgrade cfg.package_name cur lat,
                     Msg.pipInstall cfg.package_name lat]
             match update_last_checked debug env with
             | (saveMsgs, written) => (msgs1 ++ cmpMsgs ++ saveMsgs, Except.ok written))
      | _, _ => (msgs1, Except.ok false)

/-- Observable outcome of one `check_for_update()` call: the console lines,
the throttle-file content afterwards, and whether an exception escaped to the
caller. -/
structure CheckResult where
  msgs : List Msg
  fileAfter : Option String
  raised : Bool
  deriving DecidableEq

/-- `check_for_update` (lines 128-151) restricted to runs in which the
throttle-file read either succeeds or raises `FileNotFoundError`: skip
everything unless `_should_check()`; run the body under `try`; any exception
from the body is caught, one error line (plus detail in debug mode) is
printed, and the method returns normally — every branch here returns with
`raised := false` because the body's failures are all caught.  The
`_should_check()` call itself sits OUTSIDE the `try` (line 129), so its
uncaught read errors escape the method; that path is `check_for_update_exc`
below, which restricts to this function when the read does not raise an
uncaught `OSError`. -/
def check_for_update (cfg : Config) (debug : Bool) (env : Env) : CheckResult :=
  let path := last_checked_file_path env.home cfg.package_name
  match should_check_full path env.fileContent env.today debug with
  | (scMsgs, proceed) =>
    if proceed then
      match tryBody cfg debug env with
      | (msgs, Except.ok written) =>
        { msgs := scMsgs ++ msgs
          fileAfter := if written then some (isoFormat env.today) else env.fileContent
          raised := false }
      | (msgs, Except.error e) =>
        { msgs := scMsgs ++ msgs ++
            (Msg.errorChecking cfg.package_name ::
              (if debug then [Msg.debugDetailBright e] else []))
          fileAfter := env.fileContent
          raised := false }
    else { msgs := scMsgs, fileAfter := env.fileContent, raised := false }

/-- Whether the run would reach the version comparison: the remote pipeline
resolves a latest version, the local lookup resolves a current version, and
both parse. -/
def comparisonCompletes (cfg : Config) (env : Env) : Bool :=
  match get_latest_version cfg env, env.distResult with
  | Except.ok (some lat), Except.ok cur => (parseVersion cur).isSome && (parseVersion lat).isSome
  | _, _ => false

/-- `_should_check` (lines 101-116) over the full set of read outcomes.
`readErr = some e` means `open`/`file.read()` raised an `OSError` with
message `e` that is not `FileNotFoundError` (e.g. `PermissionError`); the
source's `except FileNotFoundError` / inner `except ValueError` do not match
it, so the exception propagates out of `_should_check` (`Except.error`).
With `readErr = none` the read outcome is described by `fileContent` and the
function behaves as `should_check_full`. -/
def should_check_exc (path : String) (readErr : Option String) (fileContent : Option String)
    (today : PyDate) (debug : Bool) : Except String (List Msg × Bool) :=
  match readErr with
  | some e => Except.error e
  | none => Except.ok (should_check_full path fileContent today debug)

/-- `check_for_update` (lines 128-151) over the full set of throttle-file
read outcomes.  `self._should_check()` is evaluated in the `if` condition
OUTSIDE the `try` block, so when the read raises an uncaught `OSError` the
exception escapes `check_for_update` to the caller (`raised := true`):
nothing is printed by the method and the throttle file is untouched.  On the
handled outcomes (`readErr = none`) this is `check_for_update`. -/
def check_for_update_exc (cfg : Config) (debug : Bool) (env : Env)
    (readErr : Option String) : CheckResult :=
  match should_check_exc (last_checked_file_path env.home cfg.package_name) readErr
      env.fileContent env.today debug with
  | Except.error _ => { msgs := [], fileAfter := env.fileContent, raised := true }
  | Except.ok sc =>
    if sc.2 then
      match tryBody cfg debug env with
      | (msgs, Except.ok written) =>
        { msgs := sc.1 ++ msgs
          fileAfter := if written then some (isoFormat env.today) else env.fileContent
          raised := false }
      | (msgs, Except.error e) =>
        { msgs := sc.1 ++ msgs ++
            (Msg.errorChecking cfg.package_name ::
              (if debug then [Msg.debugDetailBright e] else []))
          fileAfter := env.fileContent
          raised := false }
    else { msgs := sc.1, fileAfter := env.fileContent, raised := false }

/-!
Concrete fixtures used by the example parts of the theorems below.
-/

/-- A sample configuration. -/
def sampleCfg : Config :=
  { organization := "org", project := "proj", feed_name := "feed",
    package_name := "mypkg", username := "user" }

/-- A fully successful environment in which the remote feed reports `lat` as
the latest version and the local registry reports `cur` installed; the
throttle file is absent, so the check proceeds. -/
def sampleEnv (cur lat : String) : Env :=
  { home := "/home/u"
    cred := some "secret"
    feedsResp := Except.ok [{ name := "feed", id := "F1" }]
    packagesResp := Except.ok [{ name := "mypkg",
                                 versions := [{ version := lat, is_latest := true }] }]
    distResult := Except.ok cur
    fileContent := none
    today := { year := 2024, month := 3, day := 15 }
    writeResult := none }

/-!
Helper lemmas shared by the claim theorems.
-/

lemma check_raised_false (cfg : Config) (debug : Bool) (env : Env) :
    (check_for_update cfg debug env).raised = false := by
  unfold check_for_update
  rcases should_check_full (last_checked_file_path env.home cfg.package_name)
      env.fileContent env.today debug with ⟨scMsgs, proceed⟩
  simp only
  split
  · rcases tryBody cfg debug env with ⟨msgs, r⟩
    cases r <;> rfl
  · rfl

lemma check_for_update_exc_none (cfg : Config) (debug : Bool) (env : Env) :
    check_for_update_exc cfg debug env none = check_for_update cfg debug env := by
  unfold check_for_update_exc check_for_update should_check_exc
  rcases hp : should_check_full (last_checked_file_path env.home cfg.package_name)
      env.fileContent env.today debug with ⟨a, b⟩
  simp only [hp]

lemma feedIdLoop_eq_find (n : String) (fs : List Feed) :
    feedIdLoop n fs = (fs.find? (fun g => g.name == n)).map Feed.id := by
  induction fs with
  | nil => rfl
  | cons f fs ih =>
    by_cases h : f.name == n
    · simp [feedIdLoop, List.find?_cons, h]
    · simp [feedIdLoop, List.find?_cons, h, ih]

lemma latestLoop_eq_find (vs : List MinimalPackageVersion) :
    latestLoop vs = (vs.find? (fun v => v.is_latest)).map MinimalPackageVersion.version := by
  induction vs with
  | nil => rfl
  | cons v vs ih =>
    by_cases h : v.is_latest
    · simp [latestLoop, List.find?_cons, h]
    · simp [latestLoop, List.find?_cons, h, ih]

lemma pyStripList_append (l : List Char) (c : Char) (hc : pyIsSpace c = true) :
    pyStripList (l ++ [c]) = pyStripList l := by
  unfold pyStripList
  rw [List.dropWhile_append]
  rcases h : l.dropWhile pyIsSpace with _ | ⟨a, as⟩
  · simp [List.dropWhile, hc]
  · simp [List.reverse_append, List.dropWhile, hc]

lemma pyStrip_append_newline (s : String) : pyStrip (s ++ "\n") = pyStrip s := by
  unfold pyStrip
  have hdata : (s ++ "\n").data = s.data ++ ['\n'] := by
    rw [String.data_append]
  rw [hdata, pyStripList_append s.data '\n' rfl]

lemma should_check_msgs (path : String) (fc : Option String) (today : PyDate) (debug : Bool) :
    ∀ m ∈ (should_check_full path fc today debug).1, ∃ e, m = Msg.debugDetail e := by
  intro m hm
  rcases fc with _ | content
  · cases debug with
    | false => simp [should_check_full] at hm
    | true =>
      simp [should_check_full] at hm
      exact ⟨_, hm⟩
  · rcases hp : strptimeDate (pyStrip content) with e | d
    · cases debug with
      | false => simp [should_check_full, hp] at hm
      | true =>
        simp [should_check_full, hp] at hm
        exact ⟨_, hm⟩
    · simp [should_check_full, hp] at hm

lemma update_msgs (debug : Bool) (env : Env) :
    ∀ m ∈ (update_last_checked debug env).1,
      m = Msg.warnSaveFailed ∨ ∃ e, m = Msg.debugDetail e := by
  intro m hm
  rcases hw : env.writeResult with _ | e
  · simp [update_last_checked, hw] at hm
  · cases debug with
    | false =>
      simp [update_last_checked, hw] at hm
      exact Or.inl hm
    | true =>
      simp [update_last_checked, hw] at hm
      rcases hm with hm | hm
      · exact Or.inl hm
      · exact Or.inr ⟨_, hm⟩

/-- `check_for_update` restated with pair projections instead of the match,
for rewriting under hypotheses about `should_check_full` and `tryBody`. -/
lemma check_for_update_eq (cfg : Config) (debug : Bool) (env : Env) :
    check_for_update cfg debug env =
      (let sc := should_check_full (last_checked_file_path env.home cfg.package_name)
          env.fileContent env.today debug
       if sc.2 then
         match tryBody cfg debug env with
         | (msgs, Except.ok written) =>
           { msgs := sc.1 ++ msgs
             fileAfter := if written then some (isoFormat env.today) else env.fileContent
             raised := false }
         | (msgs, Except.error e) =>
           { msgs := sc.1 ++ msgs ++ (Msg.errorChecking cfg.package_name ::
               (if debug then [Msg.debugDetailBright e] else []))
             fileAfter := env.fileContent
             raised := false }
       else { msgs := sc.1, fileAfter := env.fileContent, raised := false }) := by
  unfold check_for_update
  rcases hp : should_check_full (last_checked_file_path env.home cfg.package_name)
      env.fileContent env.today debug with ⟨a, b⟩
  simp only [hp]

lemma tryBody_parse_ok (cfg : Config) (debug : Bool) (env : Env) (cur lat : String)
    (vc vl : PyVersion)
    (hcur : env.distResult = Except.ok cur)
    (hlat : get_latest_version cfg env = Except.ok (some lat))
    (hvc : parseVersion cur = some vc) (hvl : parseVersion lat = some vl) :
    tryBody cfg debug env =
      ((if pyGE vc vl then [Msg.upToDate cfg.package_name cur]
        else [Msg.upgrade cfg.package_name cur lat, Msg.pipInstall cfg.package_name lat])
         ++ (update_last_checked debug env).1,
       Except.ok (update_last_checked debug env).2) := by
  unfold tryBody
  rw [hlat]
  simp only [get_current_version, hcur, parseVersionExc, hvc, hvl]
  rcases update_last_checked debug env with ⟨saveMsgs, written⟩
  simp

lemma tryBody_parse_bad (cfg : Config) (debug : Bool) (env : Env) (cur lat : String)
    (hcur : env.distResult = Except.ok cur)
    (hlat : get_latest_version cfg env = Except.ok (some lat))
    (hbad : parseVersion cur = none ∨ parseVersion lat = none) :
    ∃ s, tryBody cfg debug env = ([], Except.error ("Invalid version: '" ++ s ++ "'")) := by
  unfold tryBody
  rw [hlat]
  simp only [get_current_version, hcur]
  rcases hc : parseVersion cur with _ | vc
  · exact ⟨cur, by simp [parseVersionExc, hc]⟩
  · rcases hl : parseVersion lat with _ | vl
    · exact ⟨lat, by simp [parseVersionExc, hc, hl]⟩
    · rcases hbad with hbad | hbad
      · rw [hc] at hbad; cases hbad
      · rw [hl] at hbad; cases hbad

lemma tryBody_unresolved (cfg : Config) (debug : Bool) (env : Env)
    (h : env.distResult.toOption = none ∨ get_latest_version cfg env = Except.ok none) :
    (tryBody cfg debug env).2 = Except.ok false ∨
      ∃ e, tryBody cfg debug env = ([], Except.error e) := by
  unfold tryBody
  rcases hl : get_latest_version cfg env with e | latest
  · exact Or.inr ⟨e, rfl⟩
  · rcases hc : env.distResult with e | cur
    · rcases latest with _ | lat <;> simp [get_current_version, hc]
    · rcases latest with _ | lat
      · simp [get_current_version, hc]
      · rcases h with h | h
        · rw [hc] at h; simp [Except.toOption] at h
        · rw [hl] at h; cases h

/-!
Claim theorems.
-/

/-- Counterexample to C1 as stated: a `PermissionError` raised while opening
or reading the throttle file is not a `FileNotFoundError`, so neither
`except` clause of `_should_check` matches it, and `_should_check()` is
evaluated in the `if` condition of `check_for_update` outside the `try`
block — the exception propagates to the caller. -/
theorem c1_counterexample :
    (check_for_update_exc sampleCfg false (sampleEnv "1.0.0" "1.0.0")
        (some "[Errno 13] Permission denied: '/home/u/.mypkg/update/last_checked.txt'")).raised
      = true := by
  decide

/-- C1 (amended): `check_for_update()` propagates an exception to the caller
exactly when the throttle-file read raises an `OSError` other than
`FileNotFoundError` (an outcome `_should_check` does not catch, reached
outside the `try` block).  In every other run — including every credential,
feed, package, comparison and throttle-file write failure, and a missing or
unparseable throttle file — the failure is caught internally, reported on
the console, and swallowed, and the method returns normally. -/
theorem c1_raises_only_on_uncaught_read_error (cfg : Config) (debug : Bool) (env : Env)
    (readErr : Option String) :
    (check_for_update_exc cfg debug env readErr).raised = readErr.isSome := by
  rcases readErr with _ | e
  · rw [check_for_update_exc_none]
    exact check_raised_false cfg debug env
  · rfl

/-- C2: for a throttle file whose stripped content parses as a date,
`_should_check()` returns `false` when the date is exactly one day before
today, `true` when it is two or more days before today, and `false` when it
equals today. -/
theorem c2_throttle_day_boundaries (path content : String) (fd today : PyDate) (debug : Bool)
    (hparse : strptimeDate (pyStrip content) = Except.ok fd) :
    (((toordinal today : Int) - toordinal fd = 1 →
        (should_check_full path (some content) today debug).2 = false) ∧
     (2 ≤ (toordinal today : Int) - toordinal fd →
        (should_check_full path (some content) today debug).2 = true) ∧
     ((toordinal today : Int) - toordinal fd = 0 →
        (should_check_full path (some content) today debug).2 = false)) := by
  have hval : (should_check_full path (some content) today debug).2 =
      decide (((toordinal today : Int) - (toordinal fd : Int)) > 1) := by
    simp [should_check_full, hparse]
  refine ⟨fun h1 => ?_, fun h2 => ?_, fun h0 => ?_⟩ <;> rw [hval]
  · rw [decide_eq_false_iff_not]
    omega
  · rw [decide_eq_true_eq]
    omega
  · rw [decide_eq_false_iff_not]
    omega

/-- Witness for C2 at concrete dates: 2024-03-14 against today 2024-03-15 is
one day old, and the check is skipped. -/
theorem c2_throttle_day_boundaries_witness :
    strptimeDate (pyStrip "2024-03-14") = Except.ok { year := 2024, month := 3, day := 14 } ∧
    (toordinal { year := 2024, month := 3, day := 15 } : Int)
        - toordinal { year := 2024, month := 3, day := 14 } = 1 ∧
    (should_check_full "p" (some "2024-03-14")
        { year := 2024, month := 3, day := 15 } false).2 = false :=
  ⟨by decide, by decide,
    (c2_throttle_day_boundaries "p" "2024-03-14"
      { year := 2024, month := 3, day := 14 } { year := 2024, month := 3, day := 15 }
      false (by decide)).1 (by decide)⟩

/-- C3: whenever the throttle file is missing, or its stripped content is not
a valid `YYYY-MM-DD` date, `_should_check()` returns `true` and the check
proceeds. -/
theorem c3_missing_or_unparseable_checks (path : String) (content : Option String)
    (today : PyDate) (debug : Bool)
    (h : content = none ∨ ∃ s, content = some s ∧ (strptimeDate (pyStrip s)).toOption = none) :
    (should_check_full path content today debug).2 = true := by
  rcases h with rfl | ⟨s, rfl, hs⟩
  · rfl
  · rcases hp : strptimeDate (pyStrip s) with e | d
    · simp [should_check_full, hp]
    · rw [hp] at hs
      simp [Except.toOption] at hs

/-- Witness for C3: an unparseable file content triggers a check. -/
theorem c3_missing_or_unparseable_checks_witness :
    (strptimeDate (pyStrip "last week")).toOption = none ∧
    (should_check_full "p" (some "last week")
        { year := 2024, month := 1, day := 1 } false).2 = true :=
  ⟨by decide,
    c3_missing_or_unparseable_checks "p" (some "last week")
      { year := 2024, month := 1, day := 1 } false
      (Or.inr ⟨"last week", rfl, by decide⟩)⟩

/-- C7: with the credential present and the feed list returned, `_get_feed_id`
returns the id of the first feed whose name equals the configured feed name,
and raises the lookup error when no feed name matches. -/
theorem c7_feed_id_first_match (cfg : Config) (env : Env) (pat : String) (feeds : List Feed)
    (hc : env.cred = some pat) (hf : env.feedsResp = Except.ok feeds) :
    (∀ f, feeds.find? (fun g => g.name == cfg.feed_name) = some f →
        get_feed_id cfg env = Except.ok f.id) ∧
    (feeds.find? (fun g => g.name == cfg.feed_name) = none →
        get_feed_id cfg env = Except.error
          ("Error getting feed id for feed name '" ++ cfg.feed_name ++ "'")) := by
  have hloop := feedIdLoop_eq_find cfg.feed_name feeds
  constructor
  · intro f hfind
    simp [get_feed_id, get_pat, hc, hf, hloop, hfind]
  · intro hfind
    simp [get_feed_id, get_pat, hc, hf, hloop, hfind]

/-- Witness for C7: with two feeds of the matching name, the id of the first
one is returned. -/
theorem c7_feed_id_first_match_witness :
    get_feed_id sampleCfg
      { sampleEnv "1.0.0" "1.0.0" with
          feedsResp := Except.ok [{ name := "feed", id := "A" },
                                  { name := "feed", id := "B" }] } = Except.ok "A" :=
  (c7_feed_id_first_match sampleCfg _ "secret"
      [{ name := "feed", id := "A" }, { name := "feed", id := "B" }] rfl rfl).1
    { name := "feed", id := "A" } (by decide)

/-- C9: when more than one entry of the version list carries the `is_latest`
flag, `_get_latest_version`'s scan returns the version string of the first
such entry in list order. -/
theorem c9_multiple_latest_first_match (versions : List MinimalPackageVersion)
    (h : 2 ≤ (versions.filter (fun v => v.is_latest)).length) :
    ∃ v, versions.find? (fun v => v.is_latest) = some v ∧
      latestLoop versions = some v.version := by
  have hne : versions.filter (fun v => v.is_latest) ≠ [] := by
    intro he
    rw [he] at h
    simp at h
  obtain ⟨x, hx⟩ := List.exists_mem_of_ne_nil _ hne
  have hx' := List.mem_filter.mp hx
  have hsome : (versions.find? (fun v => v.is_latest)).isSome := by
    rw [List.find?_isSome]
    exact ⟨x, hx'.1, hx'.2⟩
  obtain ⟨v, hv⟩ := Option.isSome_iff_exists.mp hsome
  refine ⟨v, hv, ?_⟩
  rw [latestLoop_eq_find, hv]
  rfl

/-- A version list in which two entries carry the `is_latest` flag. -/
def twoLatest : List MinimalPackageVersion :=
  [{ version := "2.0", is_latest := true }, { version := "1.0", is_latest := true }]

/-- Witness for C9: two flagged entries; the first one's version wins. -/
theorem c9_multiple_latest_first_match_witness :
    2 ≤ (twoLatest.filter (fun v => v.is_latest)).length ∧
    latestLoop twoLatest = some "2.0" := by
  refine ⟨by decide, ?_⟩
  obtain ⟨v, hv, hl⟩ := c9_multiple_latest_first_match twoLatest (by decide)
  have hfind : twoLatest.find? (fun v => v.is_latest) =
      some { version := "2.0", is_latest := true } := by decide
  rw [hfind] at hv
  rw [← Option.some_inj.mp hv] at hl
  exact hl

/-- C10: `_should_check` strips surrounding whitespace before parsing, so a
file holding a valid date followed by a trailing newline is treated as that
date (gating on the day difference) rather than as unparseable. -/
theorem c10_strip_trailing_newline (path s : String) (fd today : PyDate) (debug : Bool)
    (h : strptimeDate (pyStrip s) = Except.ok fd) :
    pyStrip (s ++ "\n") = pyStrip s ∧
    (should_check_full path (some (s ++ "\n")) today debug).2 =
      decide (((toordinal today : Int) - (toordinal fd : Int)) > 1) := by
  have hstrip := pyStrip_append_newline s
  refine ⟨hstrip, ?_⟩
  simp [should_check_full, hstrip, h]

/-- Witness for C10: "2024-03-14\n" behaves as the date 2024-03-14 (two days
before today here, so the check proceeds). -/
theorem c10_strip_trailing_newline_witness :
    strptimeDate (pyStrip "2024-03-14") =
        Except.ok { year := 2024, month := 3, day := 14 } ∧
    (should_check_full "p" (some ("2024-03-14" ++ "\n"))
        { year := 2024, month := 3, day := 16 } false).2 = true := by
  refine ⟨by decide, ?_⟩
  rw [(c10_strip_trailing_newline "p" "2024-03-14"
      { year := 2024, month := 3, day := 14 } { year := 2024, month := 3, day := 16 }
      false (by decide)).2]
  decide

/-- C6: when the local distribution lookup raises, `_get_current_version`
catches the exception at its own call site, prints the warning (plus the
detail in debug mode) and returns `None`; `check_for_update` then completes
without raising and without printing any version comparison. -/
theorem c6_current_version_lookup_failure (cfg : Config) (debug : Bool) (env : Env) (e : String)
    (h : env.distResult = Except.error e) :
    get_current_version cfg debug env =
      (none, Msg.warnCurrentVersion cfg.package_name ::
        (if debug then [Msg.debugDetail e] else [])) ∧
    (check_for_update cfg debug env).raised = false ∧
    (∀ m ∈ (check_for_update cfg debug env).msgs, isComparisonMsg m = false) := by
  refine ⟨by simp [get_current_version, h], check_raised_false cfg debug env, ?_⟩
  intro m hm
  rcases hs : should_check_full (last_checked_file_path env.home cfg.package_name)
      env.fileContent env.today debug with ⟨scMsgs, proceed⟩
  have hscm : ∀ x ∈ scMsgs, ∃ d, x = Msg.debugDetail d := by
    intro x hx
    exact should_check_msgs (last_checked_file_path env.home cfg.package_name)
      env.fileContent env.today debug x (by rw [hs]; exact hx)
  rw [check_for_update_eq] at hm
  simp only [hs] at hm
  cases proceed with
  | false =>
    simp only [Bool.false_eq_true, if_false] at hm
    obtain ⟨d, rfl⟩ := hscm m hm
    rfl
  | true =>
    simp only [if_true] at hm
    rcases hl : get_latest_version cfg env with e2 | latest
    · have ht : tryBody cfg debug env = ([], Except.error e2) := by
        simp [tryBody, hl]
      rw [ht] at hm
      simp only [List.append_nil, List.mem_append, List.mem_cons] at hm
      rcases hm with hm | hm | hm
      · obtain ⟨d, rfl⟩ := hscm m hm
        rfl
      · rw [hm]; rfl
      · cases debug with
        | false => simp at hm
        | true =>
          simp at hm
          rw [hm]; rfl
    · have ht : tryBody cfg debug env =
          (Msg.warnCurrentVersion cfg.package_name ::
            (if debug then [Msg.debugDetail e] else []), Except.ok false) := by
        rcases latest with _ | lat <;> simp [tryBody, hl, get_current_version, h]
      rw [ht] at hm
      simp only [List.mem_append, List.mem_cons] at hm
      rcases hm with hm | hm | hm
      · obtain ⟨d, rfl⟩ := hscm m hm
        rfl
      · rw [hm]; rfl
      · cases debug with
        | false => simp at hm
        | true =>
          simp at hm
          rw [hm]; rfl

/-- Environment for the C6 witness: the package is not registered locally. -/
def envC6 : Env := { sampleEnv "1.0.0" "1.0.0" with distResult := Except.error "not installed" }

/-- Witness for C6 at a concrete environment. -/
theorem c6_current_version_lookup_failure_witness :
    envC6.distResult = Except.error "not installed" ∧
    get_current_version sampleCfg false envC6 = (none, [Msg.warnCurrentVersion "mypkg"]) ∧
    (∀ m ∈ (check_for_update sampleCfg false envC6).msgs, isComparisonMsg m = false) := by
  have h := c6_current_version_lookup_failure sampleCfg false envC6 "not installed" rfl
  exact ⟨rfl, h.1, h.2.2⟩

/-- C8: when both versions resolve but either string is rejected by the
version parser, the `InvalidVersion` exception is caught by the top-level
handler of `check_for_update`: the method returns normally, exactly one
top-level error line is printed, and the throttle file is not updated. -/
theorem c8_parse_failure_single_error (cfg : Config) (debug : Bool) (env : Env) (cur lat : String)
    (hcur : env.distResult = Except.ok cur)
    (hlat : get_latest_version cfg env = Except.ok (some lat))
    (hbad : parseVersion cur = none ∨ parseVersion lat = none)
    (hsc : (should_check_full (last_checked_file_path env.home cfg.package_name)
        env.fileContent env.today debug).2 = true) :
    (check_for_update cfg debug env).raised = false ∧
    (check_for_update cfg debug env).msgs.count (Msg.errorChecking cfg.package_name) = 1 ∧
    (check_for_update cfg debug env).fileAfter = env.fileContent := by
  obtain ⟨s, ht⟩ := tryBody_parse_bad cfg debug env cur lat hcur hlat hbad
  rcases hs : should_check_full (last_checked_file_path env.home cfg.package_name)
      env.fileContent env.today debug with ⟨scMsgs, proceed⟩
  rw [hs] at hsc
  simp only at hsc
  subst hsc
  have hres : check_for_update cfg debug env =
      { msgs := scMsgs ++ [] ++ (Msg.errorChecking cfg.package_name ::
          (if debug then [Msg.debugDetailBright ("Invalid version: '" ++ s ++ "'")] else []))
        fileAfter := env.fileContent
        raised := false } := by
    rw [check_for_update_eq]
    simp only [hs, if_true, ht]
  rw [hres]
  refine ⟨rfl, ?_, rfl⟩
  have h0 : scMsgs.count (Msg.errorChecking cfg.package_name) = 0 := by
    rw [List.count_eq_zero]
    intro hmem
    obtain ⟨d, hd⟩ := should_check_msgs (last_checked_file_path env.home cfg.package_name)
      env.fileContent env.today debug _ (by rw [hs]; exact hmem)
    cases hd
  cases debug with
  | false => simp [List.count_append, List.count_cons, h0]
  | true => simp [List.count_append, List.count_cons, h0]

/-- Environment for the C8 witness: the locally installed version string is
not a PEP 440 version. -/
def envC8 : Env := sampleEnv "bananas" "1.0.0"

/-- Witness for C8 at a concrete environment. -/
theorem c8_parse_failure_single_error_witness :
    envC8.distResult = Except.ok "bananas" ∧
    parseVersion "bananas" = none ∧
    (check_for_update sampleCfg false envC8).msgs.count (Msg.errorChecking "mypkg") = 1 ∧
    (check_for_update sampleCfg false envC8).fileAfter = none := by
  have h := c8_parse_failure_single_error sampleCfg false envC8 "bananas" "1.0.0"
    rfl (by decide) (Or.inl (by decide)) (by decide)
  exact ⟨rfl, by decide, h.2.1, h.2.2⟩

/-- C4: whenever both versions resolve and parse, `check_for_update` compares
them by PEP 440 version precedence with `current >= latest` — the up-to-date
line is printed exactly when `current >= latest` and the pip command exactly
otherwise — and on the claim's concrete examples: current `1.0.0` against
latest `1.0.0` and current `2.0.0` against latest `1.9.0` both report
up-to-date, while current `1.0.0` against latest `1.2.0` prints the upgrade
message and the literal command `pip install mypkg==1.2.0` with both versions
interpolated. -/
theorem c4_version_precedence_comparison :
    (∀ (cfg : Config) (debug : Bool) (env : Env) (cur lat : String) (vc vl : PyVersion),
        env.distResult = Except.ok cur →
        get_latest_version cfg env = Except.ok (some lat) →
        parseVersion cur = some vc → parseVersion lat = some vl →
        (should_check_full (last_checked_file_path env.home cfg.package_name)
            env.fileContent env.today debug).2 = true →
        ((Msg.upToDate cfg.package_name cur ∈ (check_for_update cfg debug env).msgs ↔
            pyGE vc vl = true) ∧
         (Msg.pipInstall cfg.package_name lat ∈ (check_for_update cfg debug env).msgs ↔
            pyGE vc vl = false))) ∧
    (check_for_update sampleCfg false (sampleEnv "1.0.0" "1.0.0")).msgs =
        [Msg.upToDate "mypkg" "1.0.0"] ∧
    (check_for_update sampleCfg false (sampleEnv "2.0.0" "1.9.0")).msgs =
        [Msg.upToDate "mypkg" "2.0.0"] ∧
    (check_for_update sampleCfg false (sampleEnv "1.0.0" "1.2.0")).msgs =
        [Msg.upgrade "mypkg" "1.0.0" "1.2.0", Msg.pipInstall "mypkg" "1.2.0"] ∧
    render (Msg.pipInstall "mypkg" "1.2.0") = "pip install mypkg==1.2.0\n" ∧
    render (Msg.upgrade "mypkg" "1.0.0" "1.2.0") =
      foreYELLOW ++ styleBRIGHT ++
        "Please run the following command to update mypkg to the latest version (1.0.0 -> 1.2.0):"
        ++ foreRESET ++ "\n" := by
  refine ⟨?_, by decide, by decide, by decide, by decide, by decide⟩
  intro cfg debug env cur lat vc vl hcur hlat hvc hvl hsc
  have ht := tryBody_parse_ok cfg debug env cur lat vc vl hcur hlat hvc hvl
  have hmsgs : (check_for_update cfg debug env).msgs =
      (should_check_full (last_checked_file_path env.home cfg.package_name)
          env.fileContent env.today debug).1 ++
        ((if pyGE vc vl then [Msg.upToDate cfg.package_name cur]
          else [Msg.upgrade cfg.package_name cur lat, Msg.pipInstall cfg.package_name lat])
          ++ (update_last_checked debug env).1) := by
    rw [check_for_update_eq]
    simp only [hsc, if_true, ht]
  have hup_sc : Msg.upToDate cfg.package_name cur ∉
      (should_check_full (last_checked_file_path env.home cfg.package_name)
        env.fileContent env.today debug).1 := by
    intro hm
    obtain ⟨d, hd⟩ := should_check_msgs _ _ _ _ _ hm
    cases hd
  have hup_sv : Msg.upToDate cfg.package_name cur ∉ (update_last_checked debug env).1 := by
    intro hm
    rcases update_msgs debug env _ hm with hd | ⟨d, hd⟩ <;> cases hd
  have hpip_sc : Msg.pipInstall cfg.package_name lat ∉
      (should_check_full (last_checked_file_path env.home cfg.package_name)
        env.fileContent env.today debug).1 := by
    intro hm
    obtain ⟨d, hd⟩ := should_check_msgs _ _ _ _ _ hm
    cases hd
  have hpip_sv : Msg.pipInstall cfg.package_name lat ∉ (update_last_checked debug env).1 := by
    intro hm
    rcases update_msgs debug env _ hm with hd | ⟨d, hd⟩ <;> cases hd
  cases hge : pyGE vc vl with
  | true =>
    rw [hge] at hmsgs
    simp only [if_true] at hmsgs
    constructor
    · simp [hmsgs]
    · simp [hmsgs, hpip_sc, hpip_sv]
  | false =>
    rw [hge] at hmsgs
    simp only [Bool.false_eq_true, if_false] at hmsgs
    constructor
    · simp [hmsgs, hup_sc, hup_sv]
    · simp [hmsgs]

/-- Witness for C4's universally quantified part, applied at the
`1.0.0` / `1.2.0` example. -/
theorem c4_version_precedence_comparison_witness :
    (sampleEnv "1.0.0" "1.2.0").distResult = Except.ok "1.0.0" ∧
    get_latest_version sampleCfg (sampleEnv "1.0.0" "1.2.0") = Except.ok (some "1.2.0") ∧
    parseVersion "1.0.0" =
      some { epoch := 0, release := [1, 0, 0], pre := none, post := none,
             dev := none, localv := none } ∧
    (Msg.pipInstall "mypkg" "1.2.0" ∈
        (check_for_update sampleCfg false (sampleEnv "1.0.0" "1.2.0")).msgs ↔
      pyGE { epoch := 0, release := [1, 0, 0], pre := none, post := none,
             dev := none, localv := none }
           { epoch := 0, release := [1, 2, 0], pre := none, post := none,
             dev := none, localv := none } = false) := by
  refine ⟨rfl, by decide, by decide, ?_⟩
  exact (c4_version_precedence_comparison.1 sampleCfg false (sampleEnv "1.0.0" "1.2.0")
    "1.0.0" "1.2.0"
    { epoch := 0, release := [1, 0, 0], pre := none, post := none,
      dev := none, localv := none }
    { epoch := 0, release := [1, 2, 0], pre := none, post := none,
      dev := none, localv := none }
    rfl (by decide) (by decide) (by decide) (by decide)).2

/-- Environment for the C5 counterexample: the comparison completes (both
versions resolve and parse) but rewriting the throttle file raises `IOError`,
so the stale content survives. -/
def envC5 : Env :=
  { sampleEnv "1.0.0" "1.0.0" with fileContent := some "old", writeResult := some "disk full" }

/-- Counterexample to C5 as stated: in `envC5` the comparison completes (the
up-to-date line is printed), yet the throttle file is NOT overwritten with
today's date — it keeps its old content, because `_update_last_checked`
catches the `IOError` and only warns. -/
theorem c5_counterexample :
    Msg.upToDate "mypkg" "1.0.0" ∈ (check_for_update sampleCfg false envC5).msgs ∧
    Msg.warnSaveFailed ∈ (check_for_update sampleCfg false envC5).msgs ∧
    (check_for_update sampleCfg false envC5).fileAfter ≠ some (isoFormat envC5.today) ∧
    (check_for_update sampleCfg false envC5).fileAfter = envC5.fileContent := by
  refine ⟨by decide, by decide, by decide, by decide⟩

/-- C5 (amended): the throttle file is overwritten with today's ISO date
exactly when the throttle allows the check, both versions resolve, both
version strings parse, and the write itself succeeds; in every other case —
check skipped by throttle, a version unresolvable, a remote call failing, an
unparseable version string, or the write raising `IOError` (which is reported
as a warning) — the file is left unchanged. -/
theorem c5_throttle_file_overwritten_iff (cfg : Config) (debug : Bool) (env : Env) :
    (check_for_update cfg debug env).fileAfter =
      if (should_check_full (last_checked_file_path env.home cfg.package_name)
            env.fileContent env.today debug).2
          && comparisonCompletes cfg env && (env.writeResult == none)
      then some (isoFormat env.today) else env.fileContent := by
  rcases hs : should_check_full (last_checked_file_path env.home cfg.package_name)
      env.fileContent env.today debug with ⟨scMsgs, proceed⟩
  rw [check_for_update_eq]
  simp only [hs]
  cases proceed with
  | false => simp
  | true =>
    simp only [if_true, Bool.true_and]
    rcases hl : get_latest_version cfg env with e | latest
    · have ht : tryBody cfg debug env = ([], Except.error e) := by
        simp [tryBody, hl]
      have hcc : comparisonCompletes cfg env = false := by
        simp [comparisonCompletes, hl]
      simp [ht, hcc]
    · rcases hc : env.distResult with e | cur
      · have ht : tryBody cfg debug env =
            ((get_current_version cfg debug env).2, Except.ok false) := by
          rcases latest with _ | lat <;> simp [tryBody, hl, get_current_version, hc]
        have hcc : comparisonCompletes cfg env = false := by
          simp [comparisonCompletes, hl, hc]
        simp [ht, hcc]
      · rcases latest with _ | lat
        · have ht : tryBody cfg debug env = ([], Except.ok false) := by
            simp [tryBody, hl, get_current_version, hc]
          have hcc : comparisonCompletes cfg env = false := by
            simp [comparisonCompletes, hl, hc]
          simp [ht, hcc]
        · rcases hvc : parseVersion cur with _ | vc
          · obtain ⟨s, ht⟩ := tryBody_parse_bad cfg debug env cur lat hc hl (Or.inl hvc)
            have hcc : comparisonCompletes cfg env = false := by
              simp [comparisonCompletes, hl, hc, hvc]
            simp [ht, hcc]
          · rcases hvl : parseVersion lat with _ | vl
            · obtain ⟨s, ht⟩ := tryBody_parse_bad cfg debug env cur lat hc hl (Or.inr hvl)
              have hcc : comparisonCompletes cfg env = false := by
                simp [comparisonCompletes, hl, hc, hvc, hvl]
              simp [ht, hcc]
            · have ht := tryBody_parse_ok cfg debug env cur lat vc vl hc hl hvc hvl
              have hcc : comparisonCompletes cfg env = true := by
                simp [comparisonCompletes, hl, hc, hvc, hvl]
              rcases hw : env.writeResult with _ | e
              · have hu : update_last_checked debug env = ([], true) := by
                  simp [update_last_checked, hw]
                rw [hu] at ht
                simp [ht, hcc, hw]
              · have hu : update_last_checked debug env =
                    (Msg.warnSaveFailed :: (if debug then [Msg.debugDetail e] else []),
                     false) := by
                  simp [update_last_checked, hw]
                rw [hu] at ht
                simp [ht, hcc, hw]

end UpdateNotifier
